import Mathlib

/-!
Shallow embedding of the CatCurious account/credential subsystem
(src/cat_curious/models/user_model.py) and the cat record store
(src/cat_curious/models/cat_model.py), with theorems checking the
specification claims against the code.

The SHA-256 hex digest and the random salt come from external libraries
(hashlib, os.urandom); they enter the embedding as parameters: the digest as
a function `H : String → String` and the generated salt as an explicit
argument.  Database tables are lists of rows; a SQL `WHERE col = ?` filter is
modelled by a query function that, like the engine, first resolves the column
name against the table schema and fails when it does not exist.
-/

/-- Stand-in used to instantiate the digest parameter `H` in closed witness
statements.  The development holds for every digest function; injectivity is
assumed only where collision-freedom of SHA-256 is relied upon, and this
stand-in is injective. -/
def demoHash (s : String) : String := s

theorem demoHash_injective : Function.Injective demoHash := fun _ _ h => h

/-- Appending the same string on the right is cancellable: used to show that
two distinct passwords concatenated with one salt give distinct digest
inputs. -/
theorem string_append_right_cancel (a b c : String) (h : a ++ c = b ++ c) : a = b := by
  have hd : a.data ++ c.data = b.data ++ c.data := by
    have := congrArg String.data h
    simpa using this
  exact String.ext (List.append_cancel_right hd)

/-- A row of the `users` table: `users(id, username, salt, password)`
(columns as in the INSERT of `create_user`). -/
structure UserRow where
  id : Nat
  username : String
  salt : String
  password : String
deriving DecidableEq, Repr

/-- Domain errors of the credential store: the two ValueError kinds raised in
src/cat_curious/models/user_model.py. -/
inductive UserErr where
  | duplicateUsername (username : String)
  | userNotFound (username : String)
deriving DecidableEq, Repr

/-- generate_hashed_password (user_model.py lines 23-35): the salt is
`os.urandom(16).hex()` (passed in as `salt`), the hash is the digest of
`password + salt` in that order. -/
def generate_hashed_password (H : String → String) (salt : String)
    (password : String) : String × String :=
  (salt, H (password ++ salt))

/-- create_user (user_model.py lines 38-64): hashes the password with a fresh
salt and inserts `(username, salt, hashed_password)`.  There is no emptiness
validation.  A sqlite IntegrityError from the uniqueness constraint on
`username` is translated to the duplicate-username ValueError; on error
nothing is inserted. -/
def create_user (H : String → String) (salt : String)
    (username password : String) (users : List UserRow) (newId : Nat) :
    Except UserErr (List UserRow) :=
  let sh := generate_hashed_password H salt password
  if users.any (fun u => u.username == username) then
    .error (.duplicateUsername username)
  else
    .ok (users ++ [⟨newId, username, sh.1, sh.2⟩])

/-- check_password (user_model.py lines 67-86): looks the user up by
username; no row raises the user-not-found ValueError; otherwise recomputes
the digest of `password + user.salt` and returns equality with the stored
hash. -/
def check_password (H : String → String) (username password : String)
    (users : List UserRow) : Except UserErr Bool :=
  match users.find? (fun u => u.username == username) with
  | none => .error (.userNotFound username)
  | some user => .ok (H (password ++ user.salt) == user.password)

/-- update_password (user_model.py lines 133-158): generates a fresh salt and
hash from the new password and runs
`UPDATE users SET salt = ?, password = ? WHERE username = ?`; zero rows
affected raises the user-not-found ValueError. -/
def update_password (H : String → String) (salt : String)
    (username new_password : String) (users : List UserRow) :
    Except UserErr (List UserRow) :=
  let sh := generate_hashed_password H salt new_password
  if users.any (fun u => u.username == username) then
    .ok (users.map (fun u =>
      if u.username == username then { u with salt := sh.1, password := sh.2 } else u))
  else
    .error (.userNotFound username)

/-- C1: Password verification round-trip.  Storing
`generate_hashed_password p` for a user makes `check_password` return true
for `p` and false for every other password; creation and verification use the
same concatenation order (password then salt) and the same digest `H`. -/
theorem C1_password_roundtrip (H : String → String)
    (hH : Function.Injective H) (p p' salt username : String) (uid : Nat)
    (hne : p' ≠ p) :
    check_password H username p
      [⟨uid, username, (generate_hashed_password H salt p).1,
        (generate_hashed_password H salt p).2⟩] = .ok true ∧
    check_password H username p'
      [⟨uid, username, (generate_hashed_password H salt p).1,
        (generate_hashed_password H salt p).2⟩] = .ok false := by
  constructor
  · simp [check_password, generate_hashed_password]
  · simp only [check_password, generate_hashed_password, List.find?,
      beq_self_eq_true]
    refine congrArg Except.ok ?_
    rw [beq_eq_false_iff_ne]
    intro hEq
    exact hne (string_append_right_cancel p' p salt (hH hEq))

/-- C1 witness: the round-trip at a concrete user. -/
theorem C1_witness :
    check_password demoHash "u" "a"
      [⟨1, "u", "s", demoHash ("a" ++ "s")⟩] = .ok true ∧
    check_password demoHash "u" "b"
      [⟨1, "u", "s", demoHash ("a" ++ "s")⟩] = .ok false :=
  C1_password_roundtrip demoHash demoHash_injective "a" "b" "s" "u" 1
    (by decide)

/-- A row of the `cats` table.  The schema is not under src (clear_cats reads
/app/sql/create_cat_table.sql, absent); Modelled from the spec:
`cats(id, name, breed, age, weight, deleted)` (spec section 6), matching the
columns named by every SELECT, UPDATE and INSERT in cat_model.py and its
tests. -/
structure CatRow where
  id : Nat
  name : String
  breed : String
  age : Int
  weight : Int
  deleted : Bool
deriving DecidableEq, Repr

/-- The column names of the `cats` table (same source as `CatRow`). -/
def catsColumns : List String :=
  ["id", "name", "breed", "age", "weight", "deleted"]

/-- A SQL value, for comparing a WHERE parameter with a column of a row. -/
inductive SqlVal where
  | intV (i : Int) : SqlVal
  | strV (s : String) : SqlVal
  | boolV (b : Bool) : SqlVal
deriving DecidableEq, Repr

/-- The value a cats row holds in a named column; `none` when the column does
not exist in the schema. -/
def CatRow.col (r : CatRow) : String → Option SqlVal
  | "id" => some (.intV r.id)
  | "name" => some (.strV r.name)
  | "breed" => some (.strV r.breed)
  | "age" => some (.intV r.age)
  | "weight" => some (.intV r.weight)
  | "deleted" => some (.boolV r.deleted)
  | _ => none

/-- Errors of the cat record store: the ValueError kinds raised in
cat_model.py, plus `noSuchColumn`, the sqlite3 operational error the engine
raises when a query names a column that is not in the schema (those errors
are re-raised unchanged by the store). -/
inductive CatErr where
  | invalidBreed (breed : String)
  | invalidAge (age : Int)
  | invalidWeight (weight : Int)
  | duplicateName (name : String)
  | notFoundId (id : Nat)
  | deletedId (id : Nat)
  | notFoundName (name : String)
  | deletedName (name : String)
  | noSuchColumn (col : String)
deriving DecidableEq, Repr

/-- Model of `SELECT ... FROM cats WHERE <col> = ?` followed by
`fetchone()`: the engine resolves the column name against the schema first
and fails with an operational error when it does not exist; otherwise the
first matching row (or none) is returned. -/
def selectCatsWhere (col : String) (v : SqlVal) (table : List CatRow) :
    Except CatErr (Option CatRow) :=
  if col ∈ catsColumns then
    .ok (table.find? (fun r => r.col col == some v))
  else
    .error (.noSuchColumn col)

/-- The valid breed list of create_cat (cat_model.py line 52). -/
def valid_breeds : List String :=
  ["abys", "beng", "chau", "drex", "emau", "hbro", "java", "khao", "lape", "mala"]

/-- create_cat (cat_model.py lines 37-73): validates breed against the fixed
list, then age, then weight (the isinstance parts of the checks are vacuous
for the numeric embedding), all before touching the session; then inserts.
An IntegrityError from the uniqueness constraint on `name` rolls the session
back and is translated to the duplicate-name ValueError.  An `.error` result
leaves the table as it was (nothing persisted / rolled back). -/
def create_cat (name breed : String) (age weight : Int)
    (table : List CatRow) (newId : Nat) : Except CatErr (List CatRow) :=
  if breed ∈ valid_breeds then
    if age ≤ 0 then .error (.invalidAge age)
    else if weight ≤ 0 then .error (.invalidWeight weight)
    else if table.any (fun r => r.name == name) then .error (.duplicateName name)
    else .ok (table ++ [⟨newId, name, breed, age, weight, false⟩])
  else .error (.invalidBreed breed)

/-- The table after a create_cat call: on error the session was rolled back
(or never reached), so the table is unchanged. -/
def create_cat_state (name breed : String) (age weight : Int)
    (table : List CatRow) (newId : Nat) : List CatRow :=
  match create_cat name breed age weight table newId with
  | .ok t => t
  | .error _ => table

/-- delete_cat (cat_model.py lines 97-128): runs
`SELECT deleted FROM cats WHERE id = ?`; no row (fetchone gives None, the
subscript raises TypeError) means the not-found ValueError; a row with the
flag already set means the has-been-deleted ValueError; otherwise
`UPDATE cats SET deleted = TRUE WHERE id = ?`. -/
def delete_cat (cat_id : Nat) (table : List CatRow) :
    Except CatErr (List CatRow) :=
  match selectCatsWhere "id" (.intV cat_id) table with
  | .error e => .error e
  | .ok none => .error (.notFoundId cat_id)
  | .ok (some r) =>
    if r.deleted then .error (.deletedId cat_id)
    else .ok (table.map (fun s =>
      if s.id == cat_id then { s with deleted := true } else s))

/-- get_cat_by_id (cat_model.py lines 130-161): runs
`SELECT id, name, breed, age, weight, deleted FROM cats WHERE id = ?`; no row
means the not-found ValueError, a row with the flag set means the
has-been-deleted ValueError, otherwise the row is returned. -/
def get_cat_by_id (cat_id : Nat) (table : List CatRow) :
    Except CatErr CatRow :=
  match selectCatsWhere "id" (.intV cat_id) table with
  | .error e => .error e
  | .ok none => .error (.notFoundId cat_id)
  | .ok (some r) =>
    if r.deleted then .error (.deletedId cat_id) else .ok r

/-- get_cat_by_name (cat_model.py lines 163-194): runs
`SELECT id, name, breed, age, weight, deleted FROM cats WHERE cat = ?` — the
WHERE column in the source is `cat`, which is not a column of the cats
schema — then the same two-fold handling as get_cat_by_id. -/
def get_cat_by_name (cat_name : String) (table : List CatRow) :
    Except CatErr CatRow :=
  match selectCatsWhere "cat" (.strV cat_name) table with
  | .error e => .error e
  | .ok none => .error (.notFoundName cat_name)
  | .ok (some r) =>
    if r.deleted then .error (.deletedName cat_name) else .ok r

/-- clear_cats (cat_model.py lines 76-95) executes the script in
create_cat_table.sql, which is not under src.  Modelled from the spec: the
missing script gives ClearAll drop-and-recreate semantics, resetting the
entire collection to empty (spec sections 4.2 and 8). -/
def clear_cats (_table : List CatRow) : List CatRow := []

/-- The WHERE-by-id predicate of the query model agrees with plain id
comparison on rows. -/
theorem catsPredicate_id (cat_id : Nat) :
    (fun r : CatRow => r.col "id" == some (SqlVal.intV cat_id)) =
      (fun r : CatRow => r.id == cat_id) := by
  funext r
  simp [CatRow.col, beq_eq_decide, decide_eq_decide]

/-- Filtering the cats table on the `id` column succeeds and returns the
first row with that id. -/
theorem selectCatsWhere_id (cat_id : Nat) (t : List CatRow) :
    selectCatsWhere "id" (SqlVal.intV cat_id) t =
      .ok (t.find? (fun r => r.id == cat_id)) := by
  have hmem : "id" ∈ catsColumns := by decide
  unfold selectCatsWhere
  rw [if_pos hmem, catsPredicate_id]

/-- C2: get_cat_by_name never implements the by-name two-fold semantics: for
every name and every table state it fails with the no-such-column database
error, because its SELECT filters on the nonexistent column `cat`. -/
theorem C2_get_cat_by_name_always_db_error (cat_name : String)
    (table : List CatRow) :
    get_cat_by_name cat_name table = .error (.noSuchColumn "cat") := by
  have hmem : "cat" ∉ catsColumns := by decide
  unfold get_cat_by_name selectCatsWhere
  rw [if_neg hmem]

/-- C3 counterexample: the claim admits age = 0, but create_cat with a valid
breed, age = 0 and weight = 1 raises the invalid-age error. -/
theorem C3_counterexample :
    create_cat "Mittens" "abys" 0 1 [] 1 = .error (.invalidAge 0) := by
  rfl

/-- C3 amended: with a valid breed, create_cat raises the invalid-age error
exactly when age ≤ 0 (the source checks `age <= 0`; its message says the age
must be positive). -/
theorem C3_age_rejected_iff_nonpositive (name breed : String)
    (age weight : Int) (table : List CatRow) (newId : Nat)
    (hb : breed ∈ valid_breeds) :
    create_cat name breed age weight table newId = .error (.invalidAge age)
      ↔ age ≤ 0 := by
  by_cases ha : age ≤ 0
  · simp [create_cat, hb, ha]
  · by_cases hw : weight ≤ 0
    · simp [create_cat, hb, ha, hw]
    · by_cases hd : table.any (fun r => r.name == name)
      · simp [create_cat, hb, ha, hw, hd]
      · simp [create_cat, hb, ha, hw, hd]

/-- C3 witness: the amended rule evaluated at a concrete call with age 0. -/
theorem C3_witness :
    (create_cat "Mittens" "abys" 0 1 [] 1 = .error (.invalidAge 0))
      ↔ (0 : Int) ≤ 0 :=
  C3_age_rejected_iff_nonpositive "Mittens" "abys" 0 1 [] 1 (by decide)

/-- Soft-deleting a found row keeps it findable by id, now with the deleted
flag set. -/
theorem find?_id_map_mark (cat_id : Nat) (t : List CatRow) (r : CatRow)
    (h : t.find? (fun s => s.id == cat_id) = some r) :
    (t.map (fun s =>
        if s.id == cat_id then { s with deleted := true } else s)).find?
      (fun s => s.id == cat_id) = some { r with deleted := true } := by
  induction t with
  | nil => simp at h
  | cons a t ih =>
    rw [List.find?_cons] at h
    rw [List.map_cons, List.find?_cons]
    by_cases ha : (a.id == cat_id) = true
    · simp only [ha] at h
      cases h
      simp [ha]
    · simp only [Bool.not_eq_true] at ha
      simp only [ha] at h
      simpa [ha] using ih h

/-- C4: DeleteCat has the three-way outcome, and a freshly deleted cat is
thereafter unreadable by id: no row means the not-found error; a row with the
flag set means the already-deleted error (a distinct error value); an active
row is flagged, and get_cat_by_id then fails with the deleted error. -/
theorem C4_delete_cat_three_way (cat_id : Nat) (t : List CatRow) :
    (t.find? (fun r => r.id == cat_id) = none →
      delete_cat cat_id t = .error (.notFoundId cat_id)) ∧
    (∀ r, t.find? (fun r => r.id == cat_id) = some r → r.deleted = true →
      delete_cat cat_id t = .error (.deletedId cat_id)) ∧
    (∀ r, t.find? (fun r => r.id == cat_id) = some r → r.deleted = false →
      ∃ t', delete_cat cat_id t = .ok t' ∧
        get_cat_by_id cat_id t' = .error (.deletedId cat_id)) := by
  refine ⟨?_, ?_, ?_⟩
  · intro h
    unfold delete_cat
    rw [selectCatsWhere_id, h]
  · intro r h hdel
    unfold delete_cat
    rw [selectCatsWhere_id, h]
    simp [hdel]
  · intro r h hact
    refine ⟨t.map (fun s =>
      if s.id == cat_id then { s with deleted := true } else s), ?_, ?_⟩
    · unfold delete_cat
      rw [selectCatsWhere_id, h]
      simp [hact]
    · unfold get_cat_by_id
      rw [selectCatsWhere_id, find?_id_map_mark cat_id t r h]
      simp

/-- C4 witness: the active-row branch at a concrete one-cat table. -/
theorem C4_witness :
    ∃ t', delete_cat 1 [⟨1, "Mittens", "beng", 3, 10, false⟩] = .ok t' ∧
      get_cat_by_id 1 t' = .error (.deletedId 1) :=
  (C4_delete_cat_three_way 1 [⟨1, "Mittens", "beng", 3, 10, false⟩]).2.2
    ⟨1, "Mittens", "beng", 3, 10, false⟩ (by decide) rfl

/-- C5: UpdatePassword on an existing user persists exactly the freshly
generated salt and the hash of the new password under that salt (the prior
salt salt0 is not kept); afterwards the old password verifies false and the
new one true; on a username matching no row it fails with the user-not-found
error. -/
theorem C5_update_password_fresh (H : String → String)
    (hH : Function.Injective H) (old_pw new_pw salt0 salt1 username : String)
    (uid : Nat) (hne : old_pw ≠ new_pw) :
    update_password H salt1 username new_pw
        [⟨uid, username, salt0, H (old_pw ++ salt0)⟩] =
      .ok [⟨uid, username, salt1, H (new_pw ++ salt1)⟩] ∧
    check_password H username old_pw
        [⟨uid, username, salt1, H (new_pw ++ salt1)⟩] = .ok false ∧
    check_password H username new_pw
        [⟨uid, username, salt1, H (new_pw ++ salt1)⟩] = .ok true ∧
    (∀ users : List UserRow, (∀ u ∈ users, u.username ≠ username) →
      update_password H salt1 username new_pw users =
        .error (.userNotFound username)) := by
  refine ⟨?_, ?_, ?_, ?_⟩
  · simp [update_password, generate_hashed_password]
  · simp only [check_password, List.find?, beq_self_eq_true]
    refine congrArg Except.ok ?_
    rw [beq_eq_false_iff_ne]
    intro hEq
    exact hne (string_append_right_cancel old_pw new_pw salt1 (hH hEq))
  · simp [check_password]
  · intro users hus
    have hany : users.any (fun u => u.username == username) = false := by
      rw [List.any_eq_false]
      intro u hu
      simpa using hus u hu
    simp [update_password, hany]

/-- C5 witness: a concrete password rotation. -/
theorem C5_witness :
    update_password demoHash "s1" "u" "b" [⟨1, "u", "s0", demoHash ("a" ++ "s0")⟩] =
      .ok [⟨1, "u", "s1", demoHash ("b" ++ "s1")⟩] ∧
    check_password demoHash "u" "a" [⟨1, "u", "s1", demoHash ("b" ++ "s1")⟩] = .ok false ∧
    check_password demoHash "u" "b" [⟨1, "u", "s1", demoHash ("b" ++ "s1")⟩] = .ok true ∧
    update_password demoHash "s1" "u" "b" [] = .error (.userNotFound "u") := by
  have h := C5_update_password_fresh demoHash demoHash_injective "a" "b" "s0" "s1"
    "u" 1 (by decide)
  exact ⟨h.1, h.2.1, h.2.2.1, h.2.2.2 [] (by simp)⟩

/-- C6 counterexample: create_user called with an empty username and an empty
password does not fail with any validation error; it hashes and inserts the
row. -/
theorem C6_counterexample :
    create_user demoHash "s" "" "" [] 1 =
      .ok [⟨1, "", "s", demoHash ("" ++ "s")⟩] := by
  rfl

/-- C6 amended: create_user performs no emptiness validation; every call with
an empty username or empty password (and a username no existing row carries)
succeeds and inserts the row, rather than failing before persistence. -/
theorem C6_no_emptiness_validation (H : String → String)
    (salt username password : String) (users : List UserRow) (newId : Nat)
    (hempty : username = "" ∨ password = "")
    (hnew : ∀ u ∈ users, u.username ≠ username) :
    create_user H salt username password users newId =
      .ok (users ++ [⟨newId, username, salt, H (password ++ salt)⟩]) := by
  have hany : users.any (fun u => u.username == username) = false := by
    rw [List.any_eq_false]
    intro u hu
    simpa using hnew u hu
  simp [create_user, generate_hashed_password, hany]

/-- C6 witness: the amended behavior at a concrete empty-username call. -/
theorem C6_witness :
    create_user demoHash "s" "" "pw" [] 1 =
      .ok [⟨1, "", "s", demoHash ("pw" ++ "s")⟩] :=
  C6_no_emptiness_validation demoHash "s" "" "pw" [] 1 (Or.inl rfl) (by simp)

/-- C7: check_password on a username with no matching user raises the
user-not-found error (a hard failure), while a wrong password on an existing
user returns false — the two outcomes are distinguishable. -/
theorem C7_unknown_user_hard_failure (H : String → String)
    (hH : Function.Injective H) (username p p' salt : String) (uid : Nat)
    (users : List UserRow) (habs : ∀ u ∈ users, u.username ≠ username)
    (hne : p' ≠ p) :
    check_password H username p' users = .error (.userNotFound username) ∧
    check_password H username p'
      [⟨uid, username, salt, H (p ++ salt)⟩] = .ok false := by
  constructor
  · have hfind : users.find? (fun u => u.username == username) = none := by
      rw [List.find?_eq_none]
      intro u hu
      simpa using habs u hu
    simp [check_password, hfind]
  · simp only [check_password, List.find?, beq_self_eq_true]
    refine congrArg Except.ok ?_
    rw [beq_eq_false_iff_ne]
    intro hEq
    exact hne (string_append_right_cancel p' p salt (hH hEq))

/-- C7 witness: unknown user versus wrong password at concrete inputs. -/
theorem C7_witness :
    check_password demoHash "u" "b" [] = .error (.userNotFound "u") ∧
    check_password demoHash "u" "b" [⟨1, "u", "s", demoHash ("a" ++ "s")⟩] = .ok false :=
  C7_unknown_user_hard_failure demoHash demoHash_injective "u" "a" "b" "s" 1 []
    (by simp) (by decide)

/-- C8: create_cat validates before persisting and translates storage
errors: any validation failure — invalid breed, invalid age, or invalid
weight — fails with the corresponding validation error and the table is
unchanged (no row written); with valid inputs, a name-uniqueness violation
reported by the store fails with the domain duplicate-name error (not a raw
storage error) and the table is unchanged (session rolled back). -/
theorem C8_create_cat_atomic (name breed : String) (age weight : Int)
    (table : List CatRow) (newId : Nat) :
    (breed ∉ valid_breeds →
      create_cat name breed age weight table newId =
        .error (.invalidBreed breed) ∧
      create_cat_state name breed age weight table newId = table) ∧
    (breed ∈ valid_breeds → age ≤ 0 →
      create_cat name breed age weight table newId =
        .error (.invalidAge age) ∧
      create_cat_state name breed age weight table newId = table) ∧
    (breed ∈ valid_breeds → 0 < age → weight ≤ 0 →
      create_cat name breed age weight table newId =
        .error (.invalidWeight weight) ∧
      create_cat_state name breed age weight table newId = table) ∧
    (breed ∈ valid_breeds → 0 < age → 0 < weight →
      (∃ r ∈ table, r.name = name) →
      create_cat name breed age weight table newId =
        .error (.duplicateName name) ∧
      create_cat_state name breed age weight table newId = table) := by
  refine ⟨?_, ?_, ?_, ?_⟩
  · intro hb
    have h1 : create_cat name breed age weight table newId =
        .error (.invalidBreed breed) := by
      simp [create_cat, hb]
    exact ⟨h1, by simp [create_cat_state, h1]⟩
  · intro hb ha
    have h1 : create_cat name breed age weight table newId =
        .error (.invalidAge age) := by
      simp [create_cat, hb, ha]
    exact ⟨h1, by simp [create_cat_state, h1]⟩
  · intro hb ha hw
    have h1 : create_cat name breed age weight table newId =
        .error (.invalidWeight weight) := by
      simp [create_cat, hb, not_le.mpr ha, hw]
    exact ⟨h1, by simp [create_cat_state, h1]⟩
  · intro hb ha hw hdup
    have hany : table.any (fun r => r.name == name) = true := by
      rw [List.any_eq_true]
      obtain ⟨r, hr, hrn⟩ := hdup
      exact ⟨r, hr, by simpa using hrn⟩
    have h1 : create_cat name breed age weight table newId =
        .error (.duplicateName name) := by
      simp [create_cat, hb, not_le.mpr ha, not_le.mpr hw, hany]
    exact ⟨h1, by simp [create_cat_state, h1]⟩

/-- C8 witness: the invalid-breed, invalid-age, invalid-weight and
duplicate-name branches at concrete calls, each leaving the table
unchanged. -/
theorem C8_witness :
    (create_cat "X" "not_a_breed" 1 1 [] 2 = .error (.invalidBreed "not_a_breed") ∧
     create_cat_state "X" "not_a_breed" 1 1 [] 2 = []) ∧
    (create_cat "Y" "abys" (-1) 5 [] 2 = .error (.invalidAge (-1)) ∧
     create_cat_state "Y" "abys" (-1) 5 [] 2 = []) ∧
    (create_cat "Z" "beng" 2 0 [] 2 = .error (.invalidWeight 0) ∧
     create_cat_state "Z" "beng" 2 0 [] 2 = []) ∧
    (create_cat "Mittens" "beng" 3 10 [⟨1, "Mittens", "beng", 3, 10, false⟩] 2 =
       .error (.duplicateName "Mittens") ∧
     create_cat_state "Mittens" "beng" 3 10 [⟨1, "Mittens", "beng", 3, 10, false⟩] 2 =
       [⟨1, "Mittens", "beng", 3, 10, false⟩]) :=
  ⟨(C8_create_cat_atomic "X" "not_a_breed" 1 1 [] 2).1 (by decide),
   (C8_create_cat_atomic "Y" "abys" (-1) 5 [] 2).2.1 (by decide) (by decide),
   (C8_create_cat_atomic "Z" "beng" 2 0 [] 2).2.2.1 (by decide) (by decide)
     (by decide),
   (C8_create_cat_atomic "Mittens" "beng" 3 10
      [⟨1, "Mittens", "beng", 3, 10, false⟩] 2).2.2.2 (by decide) (by decide)
      (by decide) ⟨⟨1, "Mittens", "beng", 3, 10, false⟩, by simp, rfl⟩⟩

/-- C9: after clear_cats the collection is empty, so every by-id lookup fails
with the not-found error; the by-name lookup, however, fails with the
no-such-column database error (its SELECT filters on the nonexistent column
`cat`), not with the not-found error the claim states. -/
theorem C9_clear_then_lookups (t : List CatRow) (i : Nat) (n : String) :
    get_cat_by_id i (clear_cats t) = .error (.notFoundId i) ∧
    get_cat_by_name n (clear_cats t) = .error (.noSuchColumn "cat") := by
  constructor
  · unfold clear_cats get_cat_by_id
    rw [selectCatsWhere_id]
    simp
  · unfold clear_cats get_cat_by_name selectCatsWhere
    rw [if_neg (by decide)]

/-- C10: create_cat checks breed before age and age before weight: an
invalid breed yields the invalid-breed error whatever age and weight are; a
valid breed with negative age and non-positive weight yields the invalid-age
error. -/
theorem C10_validation_precedence (name breed : String) (age weight : Int)
    (table : List CatRow) (newId : Nat) :
    (breed ∉ valid_breeds →
      create_cat name breed age weight table newId =
        .error (.invalidBreed breed)) ∧
    (breed ∈ valid_breeds → age < 0 → weight ≤ 0 →
      create_cat name breed age weight table newId =
        .error (.invalidAge age)) := by
  constructor
  · intro hb
    simp [create_cat, hb]
  · intro hb ha hw
    simp [create_cat, hb, le_of_lt ha]

/-- C10 witness: both precedence branches at concrete calls with several
violations at once. -/
theorem C10_witness :
    create_cat "X" "nope" (-3) (-10) [] 1 = .error (.invalidBreed "nope") ∧
    create_cat "X" "abys" (-3) (-10) [] 1 = .error (.invalidAge (-3)) :=
  ⟨(C10_validation_precedence "X" "nope" (-3) (-10) [] 1).1 (by decide),
   (C10_validation_precedence "X" "abys" (-3) (-10) [] 1).2 (by decide)
     (by decide) (by decide)⟩
